import Mathlib

/-!
# Verification of barcode_validator core logic

Shallow embedding of the core of the `barcode_validator` repository:

* `src/barcode_validator/result.py` — the `DNAAnalysisResult` entity with its
  validating setters and the four check predicates;
* `src/barcode_validator/taxonomy.py` — the sequence-identification dispatcher
  (`run_seqid`), the tree-based lineage resolver (`collect_lineages`) and the
  remote-lookup consensus step of `run_blast`.

Python's dynamic typing is modelled by the `Val` union type, so that the
`isinstance` guards of the setters are expressible.  Python exceptions are
modelled by `Except String`: a setter that raises returns `.error msg` and
produces no new state, so the prior state is what the caller retains.
The `Config` singleton is modelled by passing the relevant configuration
values (`min_seq_length`, `level`, `idcheck` method) as explicit parameters.
-/

/-- The `Taxon` identity from the external `nbt` package, modelled at its
interface boundary: a named taxonomic unit with a rank, equality by
name + rank. -/
structure Taxon where
  name : String
  rank : String
deriving DecidableEq, Repr

/-- A dynamically-typed Python value, as far as the setters of
`DNAAnalysisResult` inspect one: an `int`, a `str`, a `Taxon` object,
a `list`, or `None`. -/
inductive Val where
  | vint (n : Int)
  | vstr (s : String)
  | vtaxon (t : Taxon)
  | vlist (xs : List Val)
  | vnone

/-- `isinstance(v, int) and v > 0` — the guard of the `seq_length` setter. -/
def Val.isPosInt : Val → Bool
  | .vint n => decide (0 < n)
  | _ => false

/-- `isinstance(v, int) and v >= 0` — the guard of the `ambiguities` setter
and of `add_stop_codon`. -/
def Val.isNonnegInt : Val → Bool
  | .vint n => decide (0 ≤ n)
  | _ => false

/-- `isinstance(v, Taxon)` — the guard of the Taxon-typed setters. -/
def Val.isTaxon : Val → Bool
  | .vtaxon _ => true
  | _ => false

/-- The state of a `DNAAnalysisResult` instance (`result.py`, `__init__`):
process id plus the six measurement fields, each starting unset/empty. -/
structure DNAAnalysisResult where
  process_id : String
  seq_length : Option Int
  obs_taxon : List Taxon
  exp_taxon : Option Taxon
  species : Option Taxon
  stop_codons : List Int
  ambiguities : Option Int
deriving DecidableEq, Repr

namespace DNAAnalysisResult

/-- `DNAAnalysisResult.__init__(process_id)`. -/
def init (pid : String) : DNAAnalysisResult :=
  { process_id := pid, seq_length := none, obs_taxon := [], exp_taxon := none,
    species := none, stop_codons := [], ambiguities := none }

/-- The `seq_length` setter: raises `ValueError` unless the value is a
positive `int`, otherwise stores it. -/
def seq_length_set (r : DNAAnalysisResult) (v : Val) : Except String DNAAnalysisResult :=
  match v with
  | .vint n =>
    if n ≤ 0 then .error "seq_length must be a positive integer"
    else .ok { r with seq_length := some n }
  | _ => .error "seq_length must be a positive integer"

/-- Extract a list of `Taxon` from a Python list value, provided every
element is a `Taxon` (the `all(isinstance(item, Taxon) ...)` guard). -/
def toTaxa : List Val → Option (List Taxon)
  | [] => some []
  | .vtaxon t :: rest =>
    match toTaxa rest with
    | some ts => some (t :: ts)
    | none => none
  | _ :: _ => none

/-- The `obs_taxon` bulk setter: raises unless given a list whose elements
are all `Taxon`, otherwise stores the list as given (no deduplication). -/
def obs_taxon_set (r : DNAAnalysisResult) (v : Val) : Except String DNAAnalysisResult :=
  match v with
  | .vlist items =>
    match toTaxa items with
    | some ts => .ok { r with obs_taxon := ts }
    | none => .error "obs_taxon must be a list of Taxon objects"
  | _ => .error "obs_taxon must be a list of Taxon objects"

/-- `add_obs_taxon`: raises unless given a `Taxon`; appends it only if it is
not already present (`if taxon not in self._obs_taxon`). -/
def add_obs_taxon (r : DNAAnalysisResult) (v : Val) : Except String DNAAnalysisResult :=
  match v with
  | .vtaxon t =>
    if t ∈ r.obs_taxon then .ok r
    else .ok { r with obs_taxon := r.obs_taxon ++ [t] }
  | _ => .error "Taxon must be a Taxon object"

/-- The `exp_taxon` setter: raises unless given a `Taxon`. -/
def exp_taxon_set (r : DNAAnalysisResult) (v : Val) : Except String DNAAnalysisResult :=
  match v with
  | .vtaxon t => .ok { r with exp_taxon := some t }
  | _ => .error "exp_taxon must be a Taxon object"

/-- The `species` setter: raises unless given a `Taxon`. -/
def species_set (r : DNAAnalysisResult) (v : Val) : Except String DNAAnalysisResult :=
  match v with
  | .vtaxon t => .ok { r with species := some t }
  | _ => .error "species must be a Taxon object"

/-- Extract a list of non-negative `int` positions from a Python list value
(the guard of the `stop_codons` setter). -/
def toPositions : List Val → Option (List Int)
  | [] => some []
  | .vint n :: rest =>
    if 0 ≤ n then
      match toPositions rest with
      | some ns => some (n :: ns)
      | none => none
    else none
  | _ :: _ => none

/-- The `stop_codons` bulk setter: raises unless given a list of
non-negative `int`s, otherwise stores the list as given. -/
def stop_codons_set (r : DNAAnalysisResult) (v : Val) : Except String DNAAnalysisResult :=
  match v with
  | .vlist items =>
    match toPositions items with
    | some ns => .ok { r with stop_codons := ns }
    | none => .error "stop_codons must be a list of non-negative integers"
  | _ => .error "stop_codons must be a list of non-negative integers"

/-- The `ambiguities` setter: raises unless given a non-negative `int`. -/
def ambiguities_set (r : DNAAnalysisResult) (v : Val) : Except String DNAAnalysisResult :=
  match v with
  | .vint n =>
    if n < 0 then .error "ambiguities must be a non-negative integer"
    else .ok { r with ambiguities := some n }
  | _ => .error "ambiguities must be a non-negative integer"

/-- `add_stop_codon`: raises unless given a non-negative `int`, otherwise
appends the position to the list. -/
def add_stop_codon (r : DNAAnalysisResult) (v : Val) : Except String DNAAnalysisResult :=
  match v with
  | .vint n =>
    if n < 0 then .error "Stop codon position must be a non-negative integer"
    else .ok { r with stop_codons := r.stop_codons ++ [n] }
  | _ => .error "Stop codon position must be a non-negative integer"

/-- The state a Python caller observes after a setter call: the new state on
success, the unchanged prior state when the setter raised. -/
def setOrKeep (res : Except String DNAAnalysisResult) (r : DNAAnalysisResult) :
    DNAAnalysisResult :=
  match res with
  | .ok r2 => r2
  | .error _ => r

/-- `check_length`: `self.seq_length >= min_length if self.seq_length is not
None else False`.  `min_length` is `config.get('min_seq_length')`, passed
here as a parameter. -/
def check_length (r : DNAAnalysisResult) (min_length : Int) : Bool :=
  match r.seq_length with
  | some l => decide (min_length ≤ l)
  | none => false

/-- `check_taxonomy`: `self.exp_taxon in [taxon for taxon in self.obs_taxon]
if self.obs_taxon and self.exp_taxon else False`.  The `if` tests Python
truthiness: a non-empty list and a non-`None` taxon. -/
def check_taxonomy (r : DNAAnalysisResult) : Bool :=
  if r.obs_taxon = [] then false
  else
    match r.exp_taxon with
    | none => false
    | some e => decide (e ∈ r.obs_taxon)

/-- `check_pseudogene`: `len(self.stop_codons) == 0`. -/
def check_pseudogene (r : DNAAnalysisResult) : Bool :=
  decide (r.stop_codons.length = 0)

/-- `passes_all_checks`: conjunction of the three checks. -/
def passes_all_checks (r : DNAAnalysisResult) (min_length : Int) : Bool :=
  check_length r min_length && check_taxonomy r && check_pseudogene r

end DNAAnalysisResult

/-!
## Taxonomy tree interface and `taxonomy.py` operations
-/

/-- A node of the taxonomy tree (produced by the external `nbt` parsers),
as far as `collect_lineages` reads one: its `name`, its `taxonomic_rank`,
and the `'taxon'` entry of its `guids` mapping (the NCBI taxon id),
inlined here as the field `taxon_guid`. -/
structure TaxonNode where
  name : String
  taxonomic_rank : String
  taxon_guid : String
deriving DecidableEq, Repr

/-- The taxonomy tree at the interface the core consumes: `get_terminals()`
(the list of tips, order fixed within one load) and `root.get_path(tip)`
(the chain of nodes from the root down to the tip, tip included, root
excluded, as in `Bio.Phylo`). -/
structure TaxonomyTree where
  terminals : List TaxonNode
  path : TaxonNode → List TaxonNode

/-- Python's `str.lower()`: lower-case every character. -/
def pyLower (s : String) : String :=
  String.mk (s.toList.map Char.toLower)

/-- Insertion into a Python `set`, modelled as an insertion-ordered
duplicate-free list: an element already present is not added again. -/
def insertDedup (xs : List String) (x : String) : List String :=
  if x ∈ xs then xs else xs ++ [x]

/-- Python's `set.update(s)` where `s` is a `str`: iterating a string yields
its characters (each a length-1 string), and each is added to the set. -/
def setUpdateStr (xs : List String) (s : String) : List String :=
  s.toList.foldl (fun acc c => insertDedup acc (String.singleton c)) xs

/-- `collect_lineages(taxids, tree)` from `taxonomy.py`: select the tips
whose `guids['taxon']` is in `taxids`, then walk each selected tip's
root-to-tip path and, at every node whose `taxonomic_rank` equals the
configured level (lower-cased), perform `taxa.update(node.name)` — which,
`node.name` being a string, adds the name's characters one by one.
`config.get('level')` is passed as the `level` parameter; the Python `set`
is modelled as an insertion-ordered duplicate-free list. -/
def collect_lineages (taxids : List String) (tree : TaxonomyTree) (level : String) :
    List String :=
  let tips := tree.terminals.filter (fun tip => tip.taxon_guid ∈ taxids)
  tips.foldl
    (fun taxa tip =>
      (tree.path tip).foldl
        (fun acc node =>
          if node.taxonomic_rank = pyLower level then setUpdateStr acc node.name
          else acc)
        taxa)
    []

/-- Modelled from the spec: `resolveAncestorsAtRank` — "For each selected
tip, compute `pathFromRoot(tip)` and scan it for the first node whose rank
equals the target rank; if found, add that node's taxon identity to the
result set."  This is the behaviour the spec ascribes to
`collect_lineages`; it adds whole node names, for comparison with the
character-level behaviour of the source. -/
def resolveAncestorsAtRank (taxids : List String) (tree : TaxonomyTree) (level : String) :
    List String :=
  let tips := tree.terminals.filter (fun tip => tip.taxon_guid ∈ taxids)
  tips.foldl
    (fun taxa tip =>
      match (tree.path tip).find? (fun node => node.taxonomic_rank == pyLower level) with
      | some node => insertDedup taxa node.name
      | none => taxa)
    []

/-- The identification methods `run_seqid` can dispatch to. -/
inductive IdMethod where
  | boldigger2
  | blast
  | localblast
deriving DecidableEq, Repr

/-- `run_seqid` from `taxonomy.py`, with `config.get('idcheck')` passed as
the `method` parameter.  The external runs themselves are collaborators, so
the dispatch outcome is abstracted to which method would run.  A raised
exception would be `.error`; the final `else` branch only calls
`logging.error(...)` and falls through to `pass`, so the function returns
Python `None` — encoded `.ok none` — without raising. -/
def run_seqid (method : String) : Except String (Option IdMethod) :=
  if method = "boldigger2" then .ok (some .boldigger2)
  else if method = "blast" then .ok (some .blast)
  else if method = "localblast" then .ok (some .localblast)
  else .ok none

/-- `lineage.get(k)` on the rank-to-name mapping of one remote lineage,
modelled as an association list. -/
def lineageGet (lineage : List (String × String)) (k : String) : Option String :=
  (lineage.find? (fun p => p.fst == k)).map Prod.snd

/-- The consensus step at the end of `run_blast` in `taxonomy.py`:
`taxa_at_level = list(set(lineage.get(target_level) for lineage in lineages
if target_level in lineage))`, returning `["Unknown"]` when that list is
empty.  The fetched lineages and the target level are parameters (the
network fetching is a collaborator); the Python `set` is modelled as an
insertion-ordered duplicate-free list. -/
def blastTaxaAtLevel (lineages : List (List (String × String)))
    (target_level : String) : List String :=
  (lineages.filterMap (fun lin => lineageGet lin target_level)).foldl insertDedup []

/-- The final `if taxa_at_level: ... else: return ["Unknown"]` of `run_blast`. -/
def run_blast_consensus (lineages : List (List (String × String)))
    (target_level : String) : List String :=
  if (blastTaxaAtLevel lineages target_level).isEmpty then ["Unknown"]
  else blastTaxaAtLevel lineages target_level

/-!
## The scenario taxonomy tree from the spec

Tips T1(taxid=10, genus=G1), T2(taxid=11, genus=G1), T3(taxid=20, genus=G2).
-/

/-- Scenario tip T1 (taxid 10, under genus G1). -/
def tipT1 : TaxonNode := { name := "T1", taxonomic_rank := "species", taxon_guid := "10" }

/-- Scenario tip T2 (taxid 11, under genus G1). -/
def tipT2 : TaxonNode := { name := "T2", taxonomic_rank := "species", taxon_guid := "11" }

/-- Scenario tip T3 (taxid 20, under genus G2). -/
def tipT3 : TaxonNode := { name := "T3", taxonomic_rank := "species", taxon_guid := "20" }

/-- Scenario genus node G1. -/
def genusG1 : TaxonNode := { name := "G1", taxonomic_rank := "genus", taxon_guid := "" }

/-- Scenario genus node G2. -/
def genusG2 : TaxonNode := { name := "G2", taxonomic_rank := "genus", taxon_guid := "" }

/-- The scenario tree: root over genera G1 (tips T1, T2) and G2 (tip T3). -/
def scenarioTree : TaxonomyTree :=
  { terminals := [tipT1, tipT2, tipT3]
    path := fun tip =>
      if tip = tipT1 then [genusG1, tipT1]
      else if tip = tipT2 then [genusG1, tipT2]
      else if tip = tipT3 then [genusG2, tipT3]
      else [] }

/-!
## Auxiliary definitions and concrete instances used in the theorems
-/

open DNAAnalysisResult

/-- A sequence of `add_obs_taxon` calls, as a Python caller would make them:
each call either raises (state kept) or returns the updated state. -/
def addObsTaxa (r : DNAAnalysisResult) (ts : List Taxon) : DNAAnalysisResult :=
  ts.foldl (fun acc t => setOrKeep (add_obs_taxon acc (Val.vtaxon t)) acc) r

/-- A concrete taxon, for witnesses. -/
def taxonA : Taxon := { name := "Aus", rank := "genus" }

/-- A second concrete taxon, distinct from `taxonA`. -/
def taxonB : Taxon := { name := "Bus", rank := "genus" }

/-- A result with sequence length 500 and nothing else set. -/
def rLen500 : DNAAnalysisResult := { init "P6" with seq_length := some 500 }

/-- A result with one observed taxon and no expected taxon. -/
def rObsOnly : DNAAnalysisResult := { init "P7" with obs_taxon := [taxonA] }

/-- A result with an expected taxon and no observed taxa. -/
def rExpOnly : DNAAnalysisResult := { init "P7" with exp_taxon := some taxonA }

/-- The spec's scenario result: length 500 (threshold 300), observed taxa
`{taxonA}`, expected taxon `taxonA`, no stop codons. -/
def rPass : DNAAnalysisResult :=
  { init "P8" with
    seq_length := some 500
    obs_taxon := [taxonA]
    exp_taxon := some taxonA }

/-!
## Theorems
-/

/-- C1: evaluation of the source's `collect_lineages` at the spec's own
scenario (tips T1(taxid=10)/T2(taxid=11) under genus G1, T3(taxid=20) under
genus G2).  Because `taxa.update(node.name)` adds the *characters* of the
name to the set, resolving `{"10","11"}` at rank genus yields the
character set `{"G","1"}` — not `{G1}` as the claim states — and
`{"10","20"}` yields `{"G","1","2"}`.  The spec-modelled
`resolveAncestorsAtRank`, which adds whole names, returns exactly the
claimed sets on the same inputs. -/
theorem collect_lineages_splits_names_into_characters :
    collect_lineages ["10", "11"] scenarioTree "genus" = ["G", "1"]
    ∧ collect_lineages ["10", "20"] scenarioTree "genus" = ["G", "1", "2"]
    ∧ resolveAncestorsAtRank ["10", "11"] scenarioTree "genus" = ["G1"]
    ∧ resolveAncestorsAtRank ["10", "20"] scenarioTree "genus" = ["G1", "G2"] :=
  ⟨rfl, rfl, rfl, rfl⟩

/-- C2: evaluation of `run_seqid` at an unsupported method name.  The final
`else` branch only logs and falls through, so the call returns Python
`None` (`.ok none`): no configuration error reaches the caller, contrary to
the claim.  The three supported names dispatch normally. -/
theorem run_seqid_unknown_method_returns_none :
    run_seqid "typo" = Except.ok none
    ∧ run_seqid "boldigger2" = Except.ok (some IdMethod.boldigger2)
    ∧ run_seqid "blast" = Except.ok (some IdMethod.blast)
    ∧ run_seqid "localblast" = Except.ok (some IdMethod.localblast) :=
  ⟨rfl, rfl, rfl, rfl⟩

/-- C3 (counterexample): the bulk `obs_taxon` setter does not deduplicate —
assigning the two-element list `[taxonA, taxonA]` stores both copies, so
the stored collection contains a duplicate Taxon, contrary to the claim
that any operation adding elements leaves the collection duplicate-free. -/
theorem obs_taxon_setter_stores_duplicates :
    obs_taxon_set (init "P1") (Val.vlist [Val.vtaxon taxonA, Val.vtaxon taxonA])
      = Except.ok { init "P1" with obs_taxon := [taxonA, taxonA] }
    ∧ ¬ ([taxonA, taxonA].Nodup) :=
  ⟨rfl, by decide⟩

/-- C3 (amended): `add_obs_taxon` has set semantics — starting from a
duplicate-free state, any sequence of `add_obs_taxon` calls keeps
`observedTaxa` duplicate-free, and adding an already-present taxon returns
the state unchanged.  (The bulk setter, per the counterexample, stores its
argument verbatim instead.) -/
theorem add_obs_taxon_set_semantics (r : DNAAnalysisResult) (ts : List Taxon) (t : Taxon)
    (h : r.obs_taxon.Nodup) :
    (addObsTaxa r ts).obs_taxon.Nodup
    ∧ (t ∈ r.obs_taxon → add_obs_taxon r (Val.vtaxon t) = Except.ok r) := by
  constructor
  · induction ts generalizing r with
    | nil => exact h
    | cons a as ih =>
      have step : (setOrKeep (add_obs_taxon r (Val.vtaxon a)) r).obs_taxon.Nodup := by
        by_cases ha : a ∈ r.obs_taxon
        · simp [add_obs_taxon, setOrKeep, ha, h]
        · simp [add_obs_taxon, setOrKeep, ha, List.nodup_append, h]
      exact ih _ step
  · intro ht
    simp [add_obs_taxon, ht]

/-- C3 (witness): concrete run — from the state with observed taxa
`[taxonA]`, adding `taxonA` then `taxonB` keeps the collection
duplicate-free, and re-adding the present `taxonA` leaves the state
unchanged. -/
theorem add_obs_taxon_set_semantics_witness :
    (addObsTaxa rObsOnly [taxonA, taxonB]).obs_taxon.Nodup
    ∧ add_obs_taxon rObsOnly (Val.vtaxon taxonA) = Except.ok rObsOnly :=
  ⟨(add_obs_taxon_set_semantics rObsOnly [taxonA, taxonB] taxonA (by decide)).1,
   (add_obs_taxon_set_semantics rObsOnly [taxonA, taxonB] taxonA (by decide)).2 (by decide)⟩

/-- C4: every validating setter rejects an invalid value with the source's
exact `ValueError` message — a non-positive-integer sequence length, a
negative or non-integer ambiguity count or stop-codon position, a
non-Taxon value for a Taxon-typed field — and the state the caller
retains after the raised error is the unchanged prior state. -/
theorem setters_reject_invalid (r : DNAAnalysisResult) (v : Val) :
    (Val.isPosInt v = false →
      seq_length_set r v = Except.error "seq_length must be a positive integer"
      ∧ setOrKeep (seq_length_set r v) r = r)
    ∧ (Val.isNonnegInt v = false →
      ambiguities_set r v = Except.error "ambiguities must be a non-negative integer"
      ∧ setOrKeep (ambiguities_set r v) r = r)
    ∧ (Val.isNonnegInt v = false →
      add_stop_codon r v = Except.error "Stop codon position must be a non-negative integer"
      ∧ setOrKeep (add_stop_codon r v) r = r)
    ∧ (Val.isTaxon v = false →
      exp_taxon_set r v = Except.error "exp_taxon must be a Taxon object"
      ∧ setOrKeep (exp_taxon_set r v) r = r)
    ∧ (Val.isTaxon v = false →
      species_set r v = Except.error "species must be a Taxon object"
      ∧ setOrKeep (species_set r v) r = r) := by
  refine ⟨fun h => ?_, fun h => ?_, fun h => ?_, fun h => ?_, fun h => ?_⟩ <;>
    cases v <;>
    simp_all [Val.isPosInt, Val.isNonnegInt, Val.isTaxon, seq_length_set,
      ambiguities_set, add_stop_codon, exp_taxon_set, species_set, setOrKeep]

/-- C4 (witness): assigning the string `"bad"` — neither an integer nor a
Taxon — through each setter of a fresh result raises the respective
`ValueError` and leaves the state unchanged. -/
theorem setters_reject_invalid_witness :
    (seq_length_set (init "W4") (Val.vstr "bad")
        = Except.error "seq_length must be a positive integer"
      ∧ setOrKeep (seq_length_set (init "W4") (Val.vstr "bad")) (init "W4") = init "W4")
    ∧ (ambiguities_set (init "W4") (Val.vstr "bad")
        = Except.error "ambiguities must be a non-negative integer"
      ∧ setOrKeep (ambiguities_set (init "W4") (Val.vstr "bad")) (init "W4") = init "W4")
    ∧ (add_stop_codon (init "W4") (Val.vstr "bad")
        = Except.error "Stop codon position must be a non-negative integer"
      ∧ setOrKeep (add_stop_codon (init "W4") (Val.vstr "bad")) (init "W4") = init "W4")
    ∧ (exp_taxon_set (init "W4") (Val.vstr "bad")
        = Except.error "exp_taxon must be a Taxon object"
      ∧ setOrKeep (exp_taxon_set (init "W4") (Val.vstr "bad")) (init "W4") = init "W4")
    ∧ (species_set (init "W4") (Val.vstr "bad")
        = Except.error "species must be a Taxon object"
      ∧ setOrKeep (species_set (init "W4") (Val.vstr "bad")) (init "W4") = init "W4") :=
  ⟨(setters_reject_invalid (init "W4") (Val.vstr "bad")).1 rfl,
   (setters_reject_invalid (init "W4") (Val.vstr "bad")).2.1 rfl,
   (setters_reject_invalid (init "W4") (Val.vstr "bad")).2.2.1 rfl,
   (setters_reject_invalid (init "W4") (Val.vstr "bad")).2.2.2.1 rfl,
   (setters_reject_invalid (init "W4") (Val.vstr "bad")).2.2.2.2 rfl⟩

/-- C5: `passes_all_checks` is true exactly when `check_length`,
`check_taxonomy` and `check_pseudogene` are all true on the same state, so
any one sub-check being false makes the aggregate false. -/
theorem passes_all_checks_iff (r : DNAAnalysisResult) (m : Int) :
    passes_all_checks r m = true ↔
      (check_length r m = true ∧ check_taxonomy r = true ∧ check_pseudogene r = true) := by
  simp [passes_all_checks, Bool.and_eq_true, and_assoc]

/-- C6: `check_length` is false when the sequence length is unset; when it
is set to `l` it is true exactly when `l` is at least the configured
minimum; in particular, on any state, length `threshold - 1` fails and
length `threshold` passes. -/
theorem check_length_spec (r : DNAAnalysisResult) (m : Int) :
    (r.seq_length = none → check_length r m = false)
    ∧ (∀ l : Int, r.seq_length = some l → (check_length r m = true ↔ m ≤ l))
    ∧ check_length { r with seq_length := some (m - 1) } m = false
    ∧ check_length { r with seq_length := some m } m = true := by
  refine ⟨fun h => ?_, fun l h => ?_, ?_, ?_⟩
  · simp [check_length, h]
  · simp [check_length, h]
  · simp [check_length]
  · simp [check_length]

/-- C6 (witness): a fresh result fails the length check at threshold 300,
and a result of length 500 passes it exactly because 300 ≤ 500. -/
theorem check_length_spec_witness :
    check_length (init "P6") 300 = false
    ∧ (check_length rLen500 300 = true ↔ (300 : Int) ≤ 500) :=
  ⟨(check_length_spec (init "P6") 300).1 rfl,
   (check_length_spec rLen500 300).2.1 500 rfl⟩

/-- C7: `check_taxonomy` is true exactly when an expected taxon is set, the
observed-taxa list is non-empty, and the expected taxon occurs in it; it is
false whenever the expected taxon is unset or the observed list is empty,
regardless of the other field. -/
theorem check_taxonomy_spec (r : DNAAnalysisResult) :
    (check_taxonomy r = true ↔
      ∃ e, r.exp_taxon = some e ∧ r.obs_taxon ≠ [] ∧ e ∈ r.obs_taxon)
    ∧ (r.exp_taxon = none → check_taxonomy r = false)
    ∧ (r.obs_taxon = [] → check_taxonomy r = false) := by
  refine ⟨?_, fun h => ?_, fun h => ?_⟩
  · by_cases ho : r.obs_taxon = [] <;> cases he : r.exp_taxon <;>
      simp [check_taxonomy, ho, he]
  · by_cases ho : r.obs_taxon = [] <;> simp [check_taxonomy, ho, h]
  · simp [check_taxonomy, h]

/-- C7 (witness): a populated observed list with no expected taxon fails
the check, and a set expected taxon with an empty observed list fails it
too. -/
theorem check_taxonomy_spec_witness :
    check_taxonomy rObsOnly = false ∧ check_taxonomy rExpOnly = false :=
  ⟨(check_taxonomy_spec rObsOnly).2.1 rfl,
   (check_taxonomy_spec rExpOnly).2.2 rfl⟩

/-- C8: `check_pseudogene` is true exactly when the stop-codon list is
empty, and `add_stop_codon` with any valid non-negative position appends it
— after which the check is false. -/
theorem check_pseudogene_spec (r : DNAAnalysisResult) (p : Int) (hp : 0 ≤ p) :
    (check_pseudogene r = true ↔ r.stop_codons = [])
    ∧ add_stop_codon r (Val.vint p)
        = Except.ok { r with stop_codons := r.stop_codons ++ [p] }
    ∧ check_pseudogene { r with stop_codons := r.stop_codons ++ [p] } = false := by
  refine ⟨?_, ?_, ?_⟩
  · simp [check_pseudogene, List.length_eq_zero]
  · rw [add_stop_codon, if_neg (by omega)]
  · simp [check_pseudogene]

/-- C8 (witness): the spec's scenario — a passing result gains a stop codon
at position 45 and the pseudogene check flips to false. -/
theorem check_pseudogene_spec_witness :
    (check_pseudogene rPass = true ↔ rPass.stop_codons = [])
    ∧ add_stop_codon rPass (Val.vint 45)
        = Except.ok { rPass with stop_codons := rPass.stop_codons ++ [45] }
    ∧ check_pseudogene { rPass with stop_codons := rPass.stop_codons ++ [45] } = false :=
  check_pseudogene_spec rPass 45 (by decide)

/-- C9: when no fetched lineage has an entry at the target rank, the
consensus step of `run_blast` returns the sentinel list `["Unknown"]` — a
value, not an exception. -/
theorem run_blast_consensus_unknown (lineages : List (List (String × String)))
    (level : String) (h : ∀ lin ∈ lineages, lineageGet lin level = none) :
    run_blast_consensus lineages level = ["Unknown"] := by
  have hnil : blastTaxaAtLevel lineages level = [] := by
    unfold blastTaxaAtLevel
    rw [List.filterMap_eq_nil_iff.mpr h]
    rfl
  rw [run_blast_consensus, hnil]
  rfl

/-- C9 (witness): two lineages — one mapping only rank family, one empty —
contain no genus entry, and the consensus at genus is `["Unknown"]`. -/
theorem run_blast_consensus_unknown_witness :
    run_blast_consensus [[("family", "F")], []] "genus" = ["Unknown"] :=
  run_blast_consensus_unknown [[("family", "F")], []] "genus" (by decide)

/-- C10: setting `species` or `ambiguities` through their setters changes
none of `check_length`, `check_taxonomy`, `check_pseudogene` or
`passes_all_checks` — the four predicates read only the other fields. -/
theorem checks_ignore_species_and_ambiguities (r r2 : DNAAnalysisResult) (v : Val) (m : Int)
    (h : species_set r v = Except.ok r2 ∨ ambiguities_set r v = Except.ok r2) :
    check_length r2 m = check_length r m
    ∧ check_taxonomy r2 = check_taxonomy r
    ∧ check_pseudogene r2 = check_pseudogene r
    ∧ passes_all_checks r2 m = passes_all_checks r m := by
  rcases h with h | h
  · cases v with
    | vtaxon t =>
      simp only [species_set] at h
      injection h with h2
      subst h2
      exact ⟨rfl, rfl, rfl, rfl⟩
    | vint n => simp only [species_set] at h; injection h
    | vstr s => simp only [species_set] at h; injection h
    | vlist xs => simp only [species_set] at h; injection h
    | vnone => simp only [species_set] at h; injection h
  · cases v with
    | vint n =>
      simp only [ambiguities_set] at h
      split at h
      · injection h
      · injection h with h2
        subst h2
        exact ⟨rfl, rfl, rfl, rfl⟩
    | vtaxon t => simp only [ambiguities_set] at h; injection h
    | vstr s => simp only [ambiguities_set] at h; injection h
    | vlist xs => simp only [ambiguities_set] at h; injection h
    | vnone => simp only [ambiguities_set] at h; injection h

/-- C10 (witness): on the scenario's passing result, setting the species to
a concrete taxon leaves all four predicates (threshold 300) unchanged. -/
theorem checks_ignore_species_and_ambiguities_witness :
    check_length { rPass with species := some taxonB } 300 = check_length rPass 300
    ∧ check_taxonomy { rPass with species := some taxonB } = check_taxonomy rPass
    ∧ check_pseudogene { rPass with species := some taxonB } = check_pseudogene rPass
    ∧ passes_all_checks { rPass with species := some taxonB } 300
        = passes_all_checks rPass 300 :=
  checks_ignore_species_and_ambiguities rPass { rPass with species := some taxonB }
    (Val.vtaxon taxonB) 300 (Or.inl rfl)
